import Mathlib

/-!
Shallow embedding of the `VaccineRecordPrivacy` contract
(Solidity, `src/unnamed/part_002`).

Addresses are natural numbers, `0` playing the role of `address(0)`.
`block.timestamp` is passed explicitly as `now : Nat` to each operation.
The external FHE runtime is modelled by `FheState`: `asEuint` allocates a
fresh ciphertext handle carrying the plaintext, `allowThis` / `allow`
record the ACL authorizations the contract requests from the sink.
A Solidity `require` failure reverts the whole transaction, so every
operation returns `Except Err ContractState`; `run` applies the
revert-on-error semantics (an error leaves the pre-state untouched).
-/

abbrev Addr := Nat

/-- One day in seconds (Solidity `1 days`). -/
def secondsPerDay : Nat := 86400

/-- An opaque ciphertext handle produced by the FHE runtime (`euint8` / `euint32`). -/
structure Ciphertext where
  hid : Nat
  val : Nat
deriving DecidableEq

/-- The state of the external FHE runtime: a handle allocator plus the
ACL pairs established through `FHE.allowThis` and `FHE.allow`. -/
structure FheState where
  nextHandle : Nat
  allowedThis : List Nat
  allowed : List (Nat × Addr)
deriving DecidableEq

/-- `FHE.asEuint8` / `FHE.asEuint32`: trivially encrypt a plaintext, allocating a fresh handle. -/
def FheState.asEuint (s : FheState) (v : Nat) : Ciphertext × FheState :=
  (⟨s.nextHandle, v⟩, { s with nextHandle := s.nextHandle + 1 })

/-- `FHE.allowThis`: authorize the contract itself on a handle. -/
def FheState.allowThis (s : FheState) (c : Ciphertext) : FheState :=
  { s with allowedThis := c.hid :: s.allowedThis }

/-- `FHE.allow`: authorize an address on a handle (decrypt rights at the sink). -/
def FheState.allow (s : FheState) (c : Ciphertext) (a : Addr) : FheState :=
  { s with allowed := (c.hid, a) :: s.allowed }

/-- `struct VaccineRecord`. -/
structure VaccineRecord where
  encryptedPersonId : Ciphertext
  encryptedVaccineType : Ciphertext
  encryptedVaccineDate : Ciphertext
  encryptedDoseNumber : Ciphertext
  encryptedBatchNumber : Ciphertext
  isActive : Bool
  timestamp : Nat
  authorizedDoctor : Addr
deriving DecidableEq

/-- The zero-initialized record a Solidity mapping returns for an absent key. -/
def VaccineRecord.default : VaccineRecord :=
  ⟨⟨0, 0⟩, ⟨0, 0⟩, ⟨0, 0⟩, ⟨0, 0⟩, ⟨0, 0⟩, false, 0, 0⟩

/-- `struct AccessPermission`. -/
structure AccessPermission where
  canView : Bool
  canUpdate : Bool
  expiryTime : Nat
  isActive : Bool
deriving DecidableEq

/-- The zero-initialized permission a Solidity mapping returns for an absent key. -/
def AccessPermission.default : AccessPermission := ⟨false, false, 0, false⟩

/-- The contract's full storage. -/
structure ContractState where
  healthAuthority : Addr
  totalRecords : Nat
  vaccineRecords : Nat → VaccineRecord
  accessPermissions : Addr → Nat → AccessPermission
  authorizedDoctors : Addr → Bool
  userRecords : Addr → List Nat
  fhe : FheState

/-- The revert reasons of the contract's `require` statements. -/
inductive Err where
  | notAuthorizedHealthAuthority
  | notAuthorizedDoctor
  | invalidPatientAddress
  | invalidVaccineType
  | invalidDoseNumber
  | recordNotActive
  | notRecordOwner
  | invalidAccessorAddress
  | noAccessPermission
  | noUpdatePermission
  | notAuthorized
deriving DecidableEq

/-- Transaction semantics: a reverted call leaves the state unchanged. -/
def run (st : ContractState) (r : Except Err ContractState) : ContractState :=
  match r with
  | .ok st' => st'
  | .error _ => st

/-- The `constructor`: deployer becomes `healthAuthority`, counters and maps zeroed.
Handle `0` is the zero ciphertext, so the allocator starts at `1`. -/
def initialState (deployer : Addr) : ContractState :=
  { healthAuthority := deployer
    totalRecords := 0
    vaccineRecords := fun _ => VaccineRecord.default
    accessPermissions := fun _ _ => AccessPermission.default
    authorizedDoctors := fun _ => false
    userRecords := fun _ => []
    fhe := ⟨1, [], []⟩ }

/-- `hasAccessPermission(user, recordId)`:
`permission.isActive && permission.canView && block.timestamp <= permission.expiryTime`. -/
def hasAccessPermission (st : ContractState) (user : Addr) (recordId : Nat) (now : Nat) : Bool :=
  let p := st.accessPermissions user recordId
  p.isActive && p.canView && decide (now ≤ p.expiryTime)

/-- `hasOwnershipOfRecord(user, recordId)`: linear scan of `userRecords[user]`. -/
def hasOwnershipOfRecord (st : ContractState) (user : Addr) (recordId : Nat) : Bool :=
  (st.userRecords user).contains recordId

/-- `authorizeDoctor(doctor)`, guarded by `onlyHealthAuthority`. -/
def authorizeDoctor (st : ContractState) (sender doctor : Addr) : Except Err ContractState :=
  if sender = st.healthAuthority then
    .ok { st with authorizedDoctors := fun a => if a = doctor then true else st.authorizedDoctors a }
  else .error .notAuthorizedHealthAuthority

/-- `revokeDoctor(doctor)`, guarded by `onlyHealthAuthority`. -/
def revokeDoctor (st : ContractState) (sender doctor : Addr) : Except Err ContractState :=
  if sender = st.healthAuthority then
    .ok { st with authorizedDoctors := fun a => if a = doctor then false else st.authorizedDoctors a }
  else .error .notAuthorizedHealthAuthority

/-- `recordVaccination(patient, personId, vaccineType, vaccineDate, doseNumber, batchNumber)`,
guarded by `onlyAuthorizedDoctor`.  Checks mirror the source's `require`s in order;
the success branch performs the encryptions, ACL authorizations, record and
permission-table writes of lines 91-143 of the source. -/
def recordVaccination (st : ContractState) (sender : Addr) (now : Nat)
    (patient : Addr) (personId vaccineType vaccineDate doseNumber batchNumber : Nat) :
    Except Err ContractState :=
  if st.authorizedDoctors sender = true then
    if patient ≠ 0 then
      if 0 < vaccineType ∧ vaccineType ≤ 10 then
        if 0 < doseNumber ∧ doseNumber ≤ 5 then
          let recordId := st.totalRecords + 1
          let (cPersonId, f1) := st.fhe.asEuint personId
          let (cVaccineType, f2) := f1.asEuint vaccineType
          let (cVaccineDate, f3) := f2.asEuint vaccineDate
          let (cDoseNumber, f4) := f3.asEuint doseNumber
          let (cBatchNumber, f5) := f4.asEuint batchNumber
          let newRecord : VaccineRecord :=
            ⟨cPersonId, cVaccineType, cVaccineDate, cDoseNumber, cBatchNumber, true, now, sender⟩
          let f6 := ((((f5.allowThis cPersonId).allowThis cVaccineType).allowThis
            cVaccineDate).allowThis cDoseNumber).allowThis cBatchNumber
          let f7 := ((((f6.allow cPersonId patient).allow cVaccineType patient).allow
            cVaccineDate patient).allow cDoseNumber patient).allow cBatchNumber patient
          let f8 := ((((f7.allow cPersonId sender).allow cVaccineType sender).allow
            cVaccineDate sender).allow cDoseNumber sender).allow cBatchNumber sender
          let ownerPerm : AccessPermission := ⟨true, false, now + 365 * secondsPerDay, true⟩
          .ok { st with
            totalRecords := recordId
            vaccineRecords := fun i => if i = recordId then newRecord else st.vaccineRecords i
            userRecords := fun a =>
              if a = patient then st.userRecords patient ++ [recordId] else st.userRecords a
            accessPermissions := fun a r =>
              if a = patient ∧ r = recordId then ownerPerm else st.accessPermissions a r
            fhe := f8 }
        else .error .invalidDoseNumber
      else .error .invalidVaccineType
    else .error .invalidPatientAddress
  else .error .notAuthorizedDoctor

/-- `grantAccess(accessor, recordId, canView, canUpdate, durationInDays)`. -/
def grantAccess (st : ContractState) (sender : Addr) (now : Nat)
    (accessor : Addr) (recordId : Nat) (canView canUpdate : Bool)
    (durationInDays : Nat) : Except Err ContractState :=
  if (st.vaccineRecords recordId).isActive = true then
    if hasOwnershipOfRecord st sender recordId = true then
      if accessor ≠ 0 then
        let expiryTime := now + durationInDays * secondsPerDay
        let perm : AccessPermission := ⟨canView, canUpdate, expiryTime, true⟩
        let st1 : ContractState := { st with
          accessPermissions := fun a r =>
            if a = accessor ∧ r = recordId then perm else st.accessPermissions a r }
        if canView then
          let record := st.vaccineRecords recordId
          .ok { st1 with
            fhe := ((((st1.fhe.allow record.encryptedPersonId accessor).allow
              record.encryptedVaccineType accessor).allow
              record.encryptedVaccineDate accessor).allow
              record.encryptedDoseNumber accessor).allow
              record.encryptedBatchNumber accessor }
        else .ok st1
      else .error .invalidAccessorAddress
    else .error .notRecordOwner
  else .error .recordNotActive

/-- `revokeAccess(accessor, recordId)`: owner-only; clears the `isActive` flag
of the `(accessor, recordId)` permission row. -/
def revokeAccess (st : ContractState) (sender accessor : Addr) (recordId : Nat) :
    Except Err ContractState :=
  if hasOwnershipOfRecord st sender recordId = true then
    .ok { st with
      accessPermissions := fun a r =>
        if a = accessor ∧ r = recordId then
          { st.accessPermissions accessor recordId with isActive := false }
        else st.accessPermissions a r }
  else .error .notRecordOwner

/-- `updateVaccineRecord(recordId, newVaccineType, newVaccineDate, newDoseNumber, newBatchNumber)`,
guarded by `onlyRecordOwnerOrAuthorized(recordId)`; zero field values mean "leave unchanged". -/
def updateVaccineRecord (st : ContractState) (sender : Addr) (now : Nat) (recordId : Nat)
    (newVaccineType newVaccineDate newDoseNumber newBatchNumber : Nat) :
    Except Err ContractState :=
  if hasAccessPermission st sender recordId now = true ∨
      (st.vaccineRecords recordId).authorizedDoctor = sender then
    if (st.vaccineRecords recordId).isActive = true then
      if (st.accessPermissions sender recordId).canUpdate = true ∨
          (st.vaccineRecords recordId).authorizedDoctor = sender then
        let r0 := st.vaccineRecords recordId
        let (r1, f1) :=
          if 0 < newVaccineType then
            let (c, f) := st.fhe.asEuint newVaccineType
            ({ r0 with encryptedVaccineType := c }, f.allowThis c)
          else (r0, st.fhe)
        let (r2, f2) :=
          if 0 < newVaccineDate then
            let (c, f) := f1.asEuint newVaccineDate
            ({ r1 with encryptedVaccineDate := c }, f.allowThis c)
          else (r1, f1)
        let (r3, f3) :=
          if 0 < newDoseNumber then
            let (c, f) := f2.asEuint newDoseNumber
            ({ r2 with encryptedDoseNumber := c }, f.allowThis c)
          else (r2, f2)
        let (r4, f4) :=
          if 0 < newBatchNumber then
            let (c, f) := f3.asEuint newBatchNumber
            ({ r3 with encryptedBatchNumber := c }, f.allowThis c)
          else (r3, f3)
        .ok { st with
          vaccineRecords := fun i => if i = recordId then r4 else st.vaccineRecords i
          fhe := f4 }
      else .error .noUpdatePermission
    else .error .recordNotActive
  else .error .noAccessPermission

/-- `deactivateRecord(recordId)`: creator or health authority only. -/
def deactivateRecord (st : ContractState) (sender : Addr) (recordId : Nat) :
    Except Err ContractState :=
  if (st.vaccineRecords recordId).authorizedDoctor = sender ∨ sender = st.healthAuthority then
    .ok { st with
      vaccineRecords := fun i =>
        if i = recordId then { st.vaccineRecords recordId with isActive := false }
        else st.vaccineRecords i }
  else .error .notAuthorized

/-! ### A concrete scenario used for witnesses and counterexamples

Deployer `1` (health authority), doctor `2`, patient `3`, grantee `4`.
The doctor records one vaccination for the patient at time `1000`;
the patient later grants viewer `4` access at time `2000`. -/

def st0 : ContractState := initialState 1

def st1 : ContractState := run st0 (authorizeDoctor st0 1 2)

def stR : ContractState := run st1 (recordVaccination st1 2 1000 3 12345 1 1700000000 1 98765)

def stG : ContractState := run stR (grantAccess stR 3 2000 4 1 true false 7)

def stG0 : ContractState := run stR (grantAccess stR 3 2000 4 1 true false 0)

def stGV : ContractState := run stG (revokeAccess stG 3 4 1)

def stD : ContractState := run stR (deactivateRecord stR 2 1)

/-- C1: a grant created by the owner with `canView = true` and duration `D` days at
time `t` stores expiry `t + D * 86400`, and the grantee is an effective viewer at
`now` exactly when `now ≤ t + D * 86400`. -/
theorem grantAccess_expiry_correctness (st st' : ContractState) (sender accessor : Addr)
    (recordId : Nat) (cu : Bool) (D t now : Nat)
    (h : grantAccess st sender t accessor recordId true cu D = .ok st') :
    (st'.accessPermissions accessor recordId).expiryTime = t + D * 86400 ∧
    (hasAccessPermission st' accessor recordId now = true ↔ now ≤ t + D * 86400) := by
  unfold grantAccess at h
  split at h
  · split at h
    · split at h
      · rw [if_pos rfl] at h
        injection h with h
        subst h
        constructor
        · simp [secondsPerDay]
        · simp [hasAccessPermission, secondsPerDay]
      · exact absurd h (by simp)
    · exact absurd h (by simp)
  · exact absurd h (by simp)

/-- C1 witness: the concrete 7-day grant to `4` has expiry `2000 + 7 * 86400` and
is effective at `now = 3000`. -/
theorem grantAccess_expiry_correctness_witness :
    (stG.accessPermissions 4 1).expiryTime = 2000 + 7 * 86400 ∧
    (hasAccessPermission stG 4 1 3000 = true ↔ 3000 ≤ 2000 + 7 * 86400) :=
  grantAccess_expiry_correctness stR stG 3 4 1 false 7 2000 3000 rfl

/-- C2: `recordVaccination` rejects — returning an error and, under revert
semantics, leaving the whole state unchanged — whenever the caller is not an
authorized doctor, the patient is the zero address, or `vaccineType` /
`doseNumber` is out of range; with an authorized caller and a nonzero patient,
`vaccineType = 0` yields exactly the invalid-vaccine-type error. -/
theorem recordVaccination_rejects_invalid (st : ContractState) (sender patient : Addr)
    (pid vt vd dn bn now : Nat)
    (h : st.authorizedDoctors sender = false ∨ patient = 0 ∨
         ¬(0 < vt ∧ vt ≤ 10) ∨ ¬(0 < dn ∧ dn ≤ 5)) :
    (∃ e, recordVaccination st sender now patient pid vt vd dn bn = .error e) ∧
    run st (recordVaccination st sender now patient pid vt vd dn bn) = st ∧
    (st.authorizedDoctors sender = true → patient ≠ 0 → vt = 0 →
      recordVaccination st sender now patient pid vt vd dn bn = .error Err.invalidVaccineType) := by
  have hfail : ∃ e, recordVaccination st sender now patient pid vt vd dn bn = .error e := by
    unfold recordVaccination
    by_cases h1 : st.authorizedDoctors sender = true
    · rw [if_pos h1]
      by_cases h2 : patient ≠ 0
      · rw [if_pos h2]
        by_cases h3 : 0 < vt ∧ vt ≤ 10
        · rw [if_pos h3]
          by_cases h4 : 0 < dn ∧ dn ≤ 5
          · rcases h with h' | h' | h' | h'
            · rw [h'] at h1; exact absurd h1 (by simp)
            · exact absurd h' h2
            · exact absurd h3 h'
            · exact absurd h4 h'
          · rw [if_neg h4]; exact ⟨_, rfl⟩
        · rw [if_neg h3]; exact ⟨_, rfl⟩
      · rw [if_neg h2]; exact ⟨_, rfl⟩
    · rw [if_neg h1]; exact ⟨_, rfl⟩
  obtain ⟨e, he⟩ := hfail
  refine ⟨⟨e, he⟩, by rw [he]; rfl, ?_⟩
  intro h1 h2 h3
  unfold recordVaccination
  rw [if_pos h1, if_pos h2, if_neg (by rw [h3]; exact fun hc => Nat.lt_irrefl 0 hc.1)]

/-- C2 witness: an authorized doctor calling with `vaccineType = 0` gets the
invalid-vaccine-type error and the state, `totalRecords` included, is unchanged. -/
theorem recordVaccination_rejects_invalid_witness :
    (∃ e, recordVaccination st1 2 1000 3 12345 0 1700000000 1 98765 = .error e) ∧
    run st1 (recordVaccination st1 2 1000 3 12345 0 1700000000 1 98765) = st1 ∧
    (st1.authorizedDoctors 2 = true → (3 : Addr) ≠ 0 → (0 : Nat) = 0 →
      recordVaccination st1 2 1000 3 12345 0 1700000000 1 98765 = .error Err.invalidVaccineType) :=
  recordVaccination_rejects_invalid st1 2 3 12345 0 1700000000 1 98765 1000
    (Or.inr (Or.inr (Or.inl (by decide))))

/-- C3: a successful `recordVaccination` at time `t` for patient `P` installs the
permission row `⟨canView = true, canUpdate = false, t + 365 days, active⟩` for
`P` on the new record id, so `P` is an effective viewer at any `now ≤ t + 365 days`. -/
theorem recordVaccination_installs_owner_grant (st st' : ContractState) (sender patient : Addr)
    (pid vt vd dn bn t now : Nat)
    (h : recordVaccination st sender t patient pid vt vd dn bn = .ok st') :
    st'.accessPermissions patient (st.totalRecords + 1) =
      ⟨true, false, t + 365 * 86400, true⟩ ∧
    (now ≤ t + 365 * 86400 → hasAccessPermission st' patient (st.totalRecords + 1) now = true) := by
  unfold recordVaccination at h
  split at h
  · split at h
    · split at h
      · split at h
        · injection h with h
          subst h
          constructor
          · simp [secondsPerDay]
          · intro hnow
            simp [hasAccessPermission, secondsPerDay, hnow]
        · exact absurd h (by simp)
      · exact absurd h (by simp)
    · exact absurd h (by simp)
  · exact absurd h (by simp)

/-- C3 witness: in the concrete scenario the patient's implicit grant row is
exactly the 365-day view-only permission and the patient is an effective
viewer at creation time. -/
theorem recordVaccination_installs_owner_grant_witness :
    stR.accessPermissions 3 (st1.totalRecords + 1) = ⟨true, false, 1000 + 365 * 86400, true⟩ ∧
    (1000 ≤ 1000 + 365 * 86400 → hasAccessPermission stR 3 (st1.totalRecords + 1) 1000 = true) :=
  recordVaccination_installs_owner_grant st1 stR 2 3 12345 1 1700000000 1 98765 1000 1000 rfl

/-- C4 counterexample: the owner creates a zero-duration view grant at `t = 2000`
on an active record; the claim says the grantee is not an effective viewer at any
time at or after `t`, including `t` itself, yet at `now = t = 2000` the grantee is
an effective viewer (the effectiveness test is `now ≤ expiryTime` with
`expiryTime = t`). -/
theorem grantAccess_zero_duration_cex :
    (grantAccess stR 3 2000 4 1 true false 0).isOk = true ∧
    hasAccessPermission (run stR (grantAccess stR 3 2000 4 1 true false 0)) 4 1 2000 = true := by
  constructor
  · decide
  · decide

/-- C4 amended: a zero-duration grant stores expiry exactly `t`; at `now = t`
itself the grantee's effectiveness equals `canView` (so a `canView = true`
zero-duration grant is still effective at the creation instant), and at every
`now > t` the grantee is not an effective viewer. -/
theorem grantAccess_zero_duration_expiry (st st' : ContractState) (sender accessor : Addr)
    (recordId : Nat) (cv cu : Bool) (t : Nat)
    (h : grantAccess st sender t accessor recordId cv cu 0 = .ok st') :
    (st'.accessPermissions accessor recordId).expiryTime = t ∧
    hasAccessPermission st' accessor recordId t = cv ∧
    (∀ now, t < now → hasAccessPermission st' accessor recordId now = false) := by
  unfold grantAccess at h
  split at h
  · split at h
    · split at h
      · split at h
        · injection h with h
          subst h
          refine ⟨by simp, by simp_all [hasAccessPermission], ?_⟩
          intro now hnow
          simp [hasAccessPermission, Nat.not_le.mpr hnow]
        · injection h with h
          subst h
          refine ⟨by simp, ?_, ?_⟩
          · have hcv : cv = false := by simp_all
            simp [hasAccessPermission, hcv]
          · intro now hnow
            simp [hasAccessPermission, Nat.not_le.mpr hnow]
      · exact absurd h (by simp)
    · exact absurd h (by simp)
  · exact absurd h (by simp)

/-- C4 witness: the concrete zero-duration grant to `4` at `t = 2000` has stored
expiry `2000`, is effective at `2000` itself, and ineffective at every later time. -/
theorem grantAccess_zero_duration_expiry_witness :
    (stG0.accessPermissions 4 1).expiryTime = 2000 ∧
    hasAccessPermission stG0 4 1 2000 = true ∧
    (∀ now, 2000 < now → hasAccessPermission stG0 4 1 now = false) :=
  grantAccess_zero_duration_expiry stR stG0 3 4 1 true false 2000 rfl

/-- C5 counterexample: the doctor `2` successfully creates record `1` for patient
`3`, yet the permission table afterwards holds no grant row for the creator (the
creator's row is still the zero row, `isActive = false`), and the owner's row is
view-only (`canUpdate = false`) — so creation does not install full-access grant
rows for both creator and owner. -/
theorem recordVaccination_no_creator_grant_cex :
    (recordVaccination st1 2 1000 3 12345 1 1700000000 1 98765).isOk = true ∧
    stR.accessPermissions 2 1 = AccessPermission.default ∧
    (stR.accessPermissions 3 1).canUpdate = false := by
  refine ⟨by decide, by decide, by decide⟩

/-- C5 amended: a successful creation with creator distinct from owner installs a
single permission-table row — a view-only, 365-day grant for the owner on the new
record — leaves every permission row of the creator unchanged, and authorizes
both owner and creator at the ciphertext sink on each of the five fresh handles. -/
theorem recordVaccination_owner_only_grant_row (st st' : ContractState)
    (sender patient : Addr) (pid vt vd dn bn t : Nat)
    (h : recordVaccination st sender t patient pid vt vd dn bn = .ok st')
    (hne : sender ≠ patient) :
    st'.accessPermissions patient (st.totalRecords + 1) =
      ⟨true, false, t + 365 * 86400, true⟩ ∧
    (∀ r, st'.accessPermissions sender r = st.accessPermissions sender r) ∧
    st'.fhe.allowed =
      (st.fhe.nextHandle + 4, sender) :: (st.fhe.nextHandle + 3, sender) ::
      (st.fhe.nextHandle + 2, sender) :: (st.fhe.nextHandle + 1, sender) ::
      (st.fhe.nextHandle, sender) ::
      (st.fhe.nextHandle + 4, patient) :: (st.fhe.nextHandle + 3, patient) ::
      (st.fhe.nextHandle + 2, patient) :: (st.fhe.nextHandle + 1, patient) ::
      (st.fhe.nextHandle, patient) :: st.fhe.allowed := by
  unfold recordVaccination at h
  split at h
  · split at h
    · split at h
      · split at h
        · injection h with h
          subst h
          refine ⟨by simp [secondsPerDay], ?_, ?_⟩
          · intro r
            simp [hne]
          · simp [FheState.asEuint, FheState.allowThis, FheState.allow]
        · exact absurd h (by simp)
      · exact absurd h (by simp)
    · exact absurd h (by simp)
  · exact absurd h (by simp)

/-- C5 witness: instantiated on the concrete scenario (creator `2`, owner `3`,
record `1`, creation time `1000`, first fresh handle `1`). -/
theorem recordVaccination_owner_only_grant_row_witness :
    stR.accessPermissions 3 (st1.totalRecords + 1) =
      ⟨true, false, 1000 + 365 * 86400, true⟩ ∧
    (∀ r, stR.accessPermissions 2 r = st1.accessPermissions 2 r) ∧
    stR.fhe.allowed =
      (st1.fhe.nextHandle + 4, 2) :: (st1.fhe.nextHandle + 3, 2) ::
      (st1.fhe.nextHandle + 2, 2) :: (st1.fhe.nextHandle + 1, 2) ::
      (st1.fhe.nextHandle, 2) ::
      (st1.fhe.nextHandle + 4, 3) :: (st1.fhe.nextHandle + 3, 3) ::
      (st1.fhe.nextHandle + 2, 3) :: (st1.fhe.nextHandle + 1, 3) ::
      (st1.fhe.nextHandle, 3) :: st1.fhe.allowed :=
  recordVaccination_owner_only_grant_row st1 stR 2 3 12345 1 1700000000 1 98765 1000 rfl
    (by decide)

/-- C6 counterexample: record `1` exists (stored owner `3`, whose record list
contains it) but has been deactivated by its creator; caller `4` is not the
owner, yet `grantAccess` fails with the record-not-active error, not the
not-record-owner error — the activity check precedes the ownership check. -/
theorem grant_nonowner_error_kind_cex :
    (stD.userRecords 3).contains 1 = true ∧
    hasOwnershipOfRecord stD 4 1 = false ∧
    grantAccess stD 4 100 5 1 true true 7 = .error Err.recordNotActive := by
  refine ⟨by decide, by decide, rfl⟩

/-- C6 amended: a caller who is not the stored owner of a record gets the
not-record-owner error from `revokeAccess` on any record, and from `grantAccess`
on an active record; on an inactive (or never-created) record `grantAccess`
instead fails with the record-not-active error. In every case the call errors
and, under revert semantics, the state is unchanged. -/
theorem grant_revoke_owner_only (st : ContractState) (sender accessor : Addr)
    (recordId : Nat) (cv cu : Bool) (d now : Nat)
    (h : hasOwnershipOfRecord st sender recordId = false) :
    revokeAccess st sender accessor recordId = .error Err.notRecordOwner ∧
    run st (revokeAccess st sender accessor recordId) = st ∧
    ((st.vaccineRecords recordId).isActive = true →
      grantAccess st sender now accessor recordId cv cu d = .error Err.notRecordOwner) ∧
    ((st.vaccineRecords recordId).isActive = false →
      grantAccess st sender now accessor recordId cv cu d = .error Err.recordNotActive) ∧
    run st (grantAccess st sender now accessor recordId cv cu d) = st := by
  have hno : ¬ hasOwnershipOfRecord st sender recordId = true := by simp [h]
  have hrev : revokeAccess st sender accessor recordId = .error Err.notRecordOwner := by
    unfold revokeAccess
    rw [if_neg hno]
  have hgact : (st.vaccineRecords recordId).isActive = true →
      grantAccess st sender now accessor recordId cv cu d = .error Err.notRecordOwner := by
    intro hact
    unfold grantAccess
    rw [if_pos hact, if_neg hno]
  have hginact : (st.vaccineRecords recordId).isActive = false →
      grantAccess st sender now accessor recordId cv cu d = .error Err.recordNotActive := by
    intro hact
    unfold grantAccess
    rw [if_neg (by simp [hact])]
  refine ⟨hrev, by rw [hrev]; rfl, hgact, hginact, ?_⟩
  rcases Bool.eq_false_or_eq_true (st.vaccineRecords recordId).isActive with hact | hact
  · rw [hgact hact]; rfl
  · rw [hginact hact]; rfl

/-- C6 witness: non-owner `4` calling `revokeAccess` and `grantAccess` on the
active record `1` owned by `3`. -/
theorem grant_revoke_owner_only_witness :
    revokeAccess stR 4 5 1 = .error Err.notRecordOwner ∧
    run stR (revokeAccess stR 4 5 1) = stR ∧
    ((stR.vaccineRecords 1).isActive = true →
      grantAccess stR 4 100 5 1 true true 7 = .error Err.notRecordOwner) ∧
    ((stR.vaccineRecords 1).isActive = false →
      grantAccess stR 4 100 5 1 true true 7 = .error Err.recordNotActive) ∧
    run stR (grantAccess stR 4 100 5 1 true true 7) = stR :=
  grant_revoke_owner_only stR 4 5 1 true true 7 100 (by decide)

/-- C7: `revokeAccess` called by the record's owner always succeeds — also when
no grant row exists for the grantee — and immediately afterwards the grantee is
not an effective viewer at any time. -/
theorem revokeAccess_idempotent_not_effective (st : ContractState) (sender accessor : Addr)
    (recordId : Nat) (h : hasOwnershipOfRecord st sender recordId = true) :
    ∃ st', revokeAccess st sender accessor recordId = .ok st' ∧
      ∀ now, hasAccessPermission st' accessor recordId now = false := by
  unfold revokeAccess
  rw [if_pos h]
  refine ⟨_, rfl, ?_⟩
  intro now
  simp [hasAccessPermission]

/-- C7 witness: owner `3` revokes grantee `9`, who holds no grant at all on
record `1`; the call succeeds and `9` is not an effective viewer afterwards. -/
theorem revokeAccess_idempotent_not_effective_witness :
    stR.accessPermissions 9 1 = AccessPermission.default ∧
    (∃ st', revokeAccess stR 3 9 1 = .ok st' ∧
      ∀ now, hasAccessPermission st' 9 1 now = false) :=
  ⟨by decide, revokeAccess_idempotent_not_effective stR 3 9 1 (by decide)⟩

/-- C8: the stored `authorizedDoctor` (creator) of an active record always passes
the authorization checks of `updateVaccineRecord`: the call succeeds with no
condition whatsoever on the creator's permission rows. -/
theorem updateVaccineRecord_creator_always (st : ContractState) (sender : Addr)
    (recordId now a b c d : Nat)
    (hact : (st.vaccineRecords recordId).isActive = true)
    (hdoc : (st.vaccineRecords recordId).authorizedDoctor = sender) :
    (updateVaccineRecord st sender now recordId a b c d).isOk = true := by
  unfold updateVaccineRecord
  rw [if_pos (Or.inr hdoc), if_pos hact, if_pos (Or.inr hdoc)]
  rfl

/-- C8 witness: creator `2` updates record `1` while holding zero grant rows for
it (its permission row is the zero row), and the call succeeds. -/
theorem updateVaccineRecord_creator_always_witness :
    stR.accessPermissions 2 1 = AccessPermission.default ∧
    (updateVaccineRecord stR 2 5000 1 2 0 0 0).isOk = true :=
  ⟨by decide,
    updateVaccineRecord_creator_always stR 2 1 5000 2 0 0 0 (by decide) (by decide)⟩

/-- C9: a successful `revokeAccess` makes no call to the ciphertext sink
(the FHE state is unchanged, so a previously authorized grantee keeps every
sink-level decrypt right), leaves every record and every other permission row
untouched, and only clears the `isActive` flag of the grantee's row. -/
theorem revokeAccess_frame (st st' : ContractState) (sender accessor : Addr)
    (recordId : Nat) (h : revokeAccess st sender accessor recordId = .ok st') :
    st'.fhe = st.fhe ∧
    st'.vaccineRecords = st.vaccineRecords ∧
    st'.totalRecords = st.totalRecords ∧
    st'.userRecords = st.userRecords ∧
    st'.authorizedDoctors = st.authorizedDoctors ∧
    st'.healthAuthority = st.healthAuthority ∧
    st'.accessPermissions accessor recordId =
      { st.accessPermissions accessor recordId with isActive := false } ∧
    (∀ a r, ¬(a = accessor ∧ r = recordId) →
      st'.accessPermissions a r = st.accessPermissions a r) ∧
    (∀ hid, (hid, accessor) ∈ st.fhe.allowed → (hid, accessor) ∈ st'.fhe.allowed) := by
  unfold revokeAccess at h
  split at h
  · injection h with h
    subst h
    refine ⟨rfl, rfl, rfl, rfl, rfl, rfl, by simp, ?_, fun hid hm => hm⟩
    intro a r hne
    simp [if_neg hne]
  · exact absurd h (by simp)

/-- C9 witness: after grantee `4` was granted view access (receiving sink pairs
for handles `1`..`5`), the owner revokes it; the FHE state is unchanged and `4`
still holds the sink pair for handle `1`. -/
theorem revokeAccess_frame_witness :
    ((1, 4) ∈ stG.fhe.allowed) ∧ stGV.fhe = stG.fhe ∧
    stGV.vaccineRecords = stG.vaccineRecords ∧
    stGV.accessPermissions 4 1 =
      { stG.accessPermissions 4 1 with isActive := false } ∧
    ((1, 4) ∈ stGV.fhe.allowed) := by
  have hfr := revokeAccess_frame stG stGV 3 4 1 rfl
  exact ⟨by decide, hfr.1, hfr.2.1, hfr.2.2.2.2.2.2.1,
    hfr.2.2.2.2.2.2.2.2 1 (by decide)⟩

/-- C10: for a caller who is not the stored `authorizedDoctor` of the record,
`updateVaccineRecord` succeeds exactly when the record is active and the
caller's stored permission row simultaneously has `isActive = true`,
`canView = true`, an unexpired expiry (`now ≤ expiryTime`) and
`canUpdate = true`; in particular `canUpdate` without `canView` never suffices. -/
theorem updateVaccineRecord_noncreator_conditions (st : ContractState) (sender : Addr)
    (recordId now a b c d : Nat)
    (hdoc : (st.vaccineRecords recordId).authorizedDoctor ≠ sender) :
    (updateVaccineRecord st sender now recordId a b c d).isOk = true ↔
      ((st.vaccineRecords recordId).isActive = true ∧
       (st.accessPermissions sender recordId).isActive = true ∧
       (st.accessPermissions sender recordId).canView = true ∧
       now ≤ (st.accessPermissions sender recordId).expiryTime ∧
       (st.accessPermissions sender recordId).canUpdate = true) := by
  constructor
  · intro hok
    unfold updateVaccineRecord at hok
    by_cases h1 : hasAccessPermission st sender recordId now = true ∨
        (st.vaccineRecords recordId).authorizedDoctor = sender
    · rw [if_pos h1] at hok
      by_cases h2 : (st.vaccineRecords recordId).isActive = true
      · rw [if_pos h2] at hok
        by_cases h3 : (st.accessPermissions sender recordId).canUpdate = true ∨
            (st.vaccineRecords recordId).authorizedDoctor = sender
        · have hview := (or_iff_left hdoc).mp h1
          have hupd := (or_iff_left hdoc).mp h3
          simp only [hasAccessPermission, Bool.and_eq_true, decide_eq_true_eq] at hview
          exact ⟨h2, by tauto, by tauto, by tauto, hupd⟩
        · rw [if_neg h3] at hok
          exact Bool.noConfusion hok
      · rw [if_neg h2] at hok
        exact Bool.noConfusion hok
    · rw [if_neg h1] at hok
      exact Bool.noConfusion hok
  · rintro ⟨hact, hpa, hpv, hpe, hpu⟩
    have h1 : hasAccessPermission st sender recordId now = true := by
      simp [hasAccessPermission, hpa, hpv, hpe]
    unfold updateVaccineRecord
    rw [if_pos (Or.inl h1), if_pos hact, if_pos (Or.inl hpu)]
    rfl

/-- C10 witness: stranger `4` (not the record's doctor) attempts an update of
record `1`; the success test reduces to the four stored-permission conditions,
which fail here since `4` holds no grant. -/
theorem updateVaccineRecord_noncreator_conditions_witness :
    (stR.vaccineRecords 1).authorizedDoctor ≠ 4 ∧
    ((updateVaccineRecord stR 4 5000 1 2 0 0 0).isOk = true ↔
      ((stR.vaccineRecords 1).isActive = true ∧
       (stR.accessPermissions 4 1).isActive = true ∧
       (stR.accessPermissions 4 1).canView = true ∧
       5000 ≤ (stR.accessPermissions 4 1).expiryTime ∧
       (stR.accessPermissions 4 1).canUpdate = true)) :=
  ⟨by decide, updateVaccineRecord_noncreator_conditions stR 4 1 5000 2 0 0 0 (by decide)⟩
